import Mathlib

/-!
Shallow embedding of `src/hotelmgmt.PY` (a single-file hotel guest-registry
manager over a MySQL `customers` table) and proofs about its record
operations.

The MySQL table is modelled as a `Registry`: a list of rows plus the
store-owned counters (`AUTO_INCREMENT` id source and a clock for
`CURRENT_TIMESTAMP`).  Each Python function of the registry layer becomes a
pure Lean function from the caller-supplied strings (the `input()` lines it
reads) and the registry state to a discriminated outcome plus the resulting
state.  Python's `int(...)` call is modelled by `pyToInt`; `str.lower()` by
`pyLower`.  The interactive `main` loop is modelled over a finite
list of stdin lines, where exhausting the list models `input()` raising
`EOFError` (which no handler in the source catches).
-/

namespace HotelMgmt

/-- One row of the `customers` table (schema from `setup_database`,
lines 41-50 of the source): id INT AUTO_INCREMENT PRIMARY KEY, name,
contact, address (NOT NULL text columns), room_number INT NOT NULL UNIQUE,
check_in_date TIMESTAMP DEFAULT CURRENT_TIMESTAMP. -/
structure Customer where
  id : Nat
  name : String
  contact : String
  address : String
  room_number : Int
  check_in_date : Nat
  deriving Repr, DecidableEq

/-- The state of the `customers` table together with the two values the
store itself generates: the next AUTO_INCREMENT id and the clock that
supplies CURRENT_TIMESTAMP. -/
structure Registry where
  rows : List Customer
  nextId : Nat
  clock : Nat
  deriving Repr, DecidableEq

/-- Kernel-evaluable digit-string to Nat conversion. -/
def digitsToNat : List Char → Nat → Nat
  | [], acc => acc
  | ch :: cs, acc => digitsToNat cs (acc * 10 + (ch.toNat - '0'.toNat))

/-- Model of Python's `int(s)` on a list of characters: optional
surrounding whitespace, an optional sign, then one or more decimal digits;
anything else raises `ValueError`, modelled as `none`. -/
def pyToIntChars (cs : List Char) : Option Int :=
  let cs := ((cs.dropWhile Char.isWhitespace).reverse.dropWhile
      Char.isWhitespace).reverse
  match cs with
  | '-' :: ds =>
      if ds ≠ [] ∧ ds.all Char.isDigit then some (-(digitsToNat ds 0 : Int))
      else none
  | '+' :: ds =>
      if ds ≠ [] ∧ ds.all Char.isDigit then some (digitsToNat ds 0 : Int)
      else none
  | ds =>
      if ds ≠ [] ∧ ds.all Char.isDigit then some (digitsToNat ds 0 : Int)
      else none

/-- Model of Python's `int(s)` for a string. -/
def pyToInt (s : String) : Option Int := pyToIntChars s.data

/-- Model of Python's `str.lower()`, character by character. -/
def pyLower (s : String) : String := ⟨s.data.map Char.toLower⟩

/-- Outcome of `check_in_customer` (source lines 61-87), as the closed set
of messages the function can print: success, the missing-field rejection,
the `ValueError` rejection for a non-integer room number, the errno-1062
duplicate-room conflict naming the offending room, or any other storage
error. -/
inductive CheckInOutcome where
  | Success (name : String) (room : Int)
  | MissingField
  | InvalidRoomNumber
  | ConflictFailure (room : Int)
  | StorageFailure (msg : String)
  deriving Repr, DecidableEq

/-- Embedding of `check_in_customer` (source lines 61-87).  The four
`input()` values arrive as arguments.  `int(input(...))` is `pyToInt`; a
parse failure is the `ValueError` branch.  `if not all([name, contact,
address, room_number])` tests Python truthiness: an empty string and the
integer 0 are both falsy.  The INSERT succeeds exactly when no existing
row has the same `room_number` (the UNIQUE constraint); a duplicate raises
errno 1062, reported as a conflict naming the room.  The store assigns
`id` from the AUTO_INCREMENT counter and `check_in_date` from the clock. -/
def check_in_customer (s : Registry) (name contact address roomInput : String) :
    CheckInOutcome × Registry :=
  match pyToInt roomInput with
  | none => (.InvalidRoomNumber, s)
  | some room =>
      if name = "" ∨ contact = "" ∨ address = "" ∨ room = 0 then
        (.MissingField, s)
      else if s.rows.any (fun c => c.room_number == room) then
        (.ConflictFailure room, s)
      else
        let newRow : Customer :=
          ⟨s.nextId, name, contact, address, room, s.clock⟩
        (.Success name room,
          ⟨s.rows ++ [newRow], s.nextId + 1, s.clock + 1⟩)

/-- Outcome of `find_customer` (source lines 112-137): the record found,
the not-found message for the requested room, the `ValueError` rejection,
or a storage error. -/
inductive FindOutcome where
  | Found (c : Customer)
  | NotFound (room : Int)
  | InvalidInput
  | StorageFailure (msg : String)
  deriving Repr, DecidableEq

/-- Embedding of `find_customer` (source lines 112-137): parse the room
number (`ValueError` on failure, before any query), then SELECT the row
with that `room_number` (`fetchone`, so the first match), reporting the
record or the not-found message.  No path mutates the table. -/
def find_customer (s : Registry) (roomInput : String) : FindOutcome × Registry :=
  match pyToInt roomInput with
  | none => (.InvalidInput, s)
  | some room =>
      match s.rows.find? (fun c => c.room_number == room) with
      | some c => (.Found c, s)
      | none => (.NotFound room, s)

/-- Outcome of `check_out_customer` (source lines 139-167): confirmed
deletion succeeded, the room was not occupied, the user declined the
confirmation, the `ValueError` rejection, or the rowcount-zero
"Could not process check-out." storage-class failure. -/
inductive CheckOutOutcome where
  | Success (room : Int)
  | NotFound (room : Int)
  | Cancelled
  | InvalidInput
  | StorageFailure (msg : String)
  deriving Repr, DecidableEq

/-- Embedding of `check_out_customer` (source lines 139-167).  The
function is two-phase against the live database: a SELECT of the occupant
name, then (after the confirmation prompt) a DELETE whose `rowcount` is
inspected.  Another writer may change the table between the two
statements, so the embedding takes the table state at lookup time
(`sLook`) and at delete time (`sDel`) separately; a sequential run has
`sDel = sLook`.  Parse failure (`ValueError`) precedes any query; an
empty lookup result returns the not-occupied message before any mutation;
a confirmation other than `y` (after `.lower()`) cancels with no
mutation; a confirmed DELETE that removes zero rows prints
"Could not process check-out." instead of success. -/
def check_out_customer (sLook sDel : Registry) (roomInput confirm : String) :
    CheckOutOutcome × Registry :=
  match pyToInt roomInput with
  | none => (.InvalidInput, sDel)
  | some room =>
      match sLook.rows.find? (fun c => c.room_number == room) with
      | none => (.NotFound room, sDel)
      | some _ =>
          if pyLower confirm = "y" then
            let rowcount := sDel.rows.countP (fun c => c.room_number == room)
            let sAfter : Registry :=
              ⟨sDel.rows.filter (fun c => ¬ c.room_number == room),
                sDel.nextId, sDel.clock⟩
            if rowcount > 0 then (.Success room, sAfter)
            else (.StorageFailure "Could not process check-out.", sAfter)
          else
            (.Cancelled, sDel)

/-- Outcome of `view_all_customers` (source lines 89-110): the retrieved
rows (possibly none — the empty table prints an informational message and
is not an error) or a storage error. -/
inductive ViewOutcome where
  | Success (rows : List Customer)
  | StorageFailure (msg : String)
  deriving Repr, DecidableEq

/-- Ordering used by `ORDER BY room_number`. -/
def roomLe (a b : Customer) : Prop := a.room_number ≤ b.room_number

instance : DecidableRel roomLe := fun a b => by
  unfold roomLe; infer_instance

instance : IsTotal Customer roomLe :=
  ⟨fun a b => Int.le_total a.room_number b.room_number⟩

instance : IsTrans Customer roomLe :=
  ⟨fun _ _ _ h1 h2 => Int.le_trans h1 h2⟩

/-- Embedding of `view_all_customers` (source lines 89-110): SELECT all
rows ORDER BY `room_number` ascending.  An empty result prints
"No customers are currently checked in." and returns normally, so it is a
success carrying zero rows.  No path mutates the table. -/
def view_all_customers (s : Registry) : ViewOutcome :=
  .Success (s.rows.insertionSort roomLe)

/-- State of the MySQL server as far as `setup_database` observes it:
whether the `hotel_db` database exists and whether the `customers` table
exists inside it. -/
structure ServerState where
  dbExists : Bool
  tableExists : Bool
  deriving Repr, DecidableEq

/-- MySQL errno raised by `CREATE DATABASE` when the database already
exists (`errorcode.ER_DB_CREATE_EXISTS`). -/
def ER_DB_CREATE_EXISTS : Nat := 1007

/-- Result of the `CREATE DATABASE hotel_db` statement (source line 25):
if a server-side fault is present the server reports that errno; otherwise
the statement fails with `ER_DB_CREATE_EXISTS` when the database already
exists, and succeeds (creating it) when it does not. -/
def createDatabase (s : ServerState) (fault : Option Nat) :
    ServerState × Option Nat :=
  match fault with
  | some e => (s, some e)
  | none =>
      if s.dbExists then (s, some ER_DB_CREATE_EXISTS)
      else ({ s with dbExists := true }, none)

/-- Result of `CREATE TABLE IF NOT EXISTS customers ...` (source lines
41-50): creates the table only when absent, never errors, never makes a
second table. -/
def createTableIfNotExists (s : ServerState) : ServerState :=
  if s.tableExists then s else { s with tableExists := true }

/-- Outcome of `setup_database` (source lines 11-57): a live connection,
or `None` after printing the setup error (the outer `except` at lines
55-57, reached when a storage error other than `ER_DB_CREATE_EXISTS`
propagates). -/
inductive SetupOutcome where
  | Ready
  | SetupError (errno : Nat)
  deriving Repr, DecidableEq

/-- Embedding of `setup_database` (source lines 11-57): run
`CREATE DATABASE` and swallow exactly the `ER_DB_CREATE_EXISTS` errno
(lines 24-30) — any other errno re-raises into the outer handler and the
function returns `None`; then run `CREATE TABLE IF NOT EXISTS` and return
the connection.  `fault` models a server-side error on the
`CREATE DATABASE` statement beyond plain "already exists" (connectivity
loss, privilege error, ...); a healthy server is `fault = none`. -/
def setup_database (s : ServerState) (fault : Option Nat) :
    ServerState × SetupOutcome :=
  match createDatabase s fault with
  | (s1, some e) =>
      if e = ER_DB_CREATE_EXISTS then (createTableIfNotExists s1, .Ready)
      else (s1, .SetupError e)
  | (s1, none) => (createTableIfNotExists s1, .Ready)

/-- How the `while True` loop of `main` (source lines 177-205) ended:
`choice == '5'` breaks out normally, after which lines 203-205 close the
connection; an `EOFError` raised by `input()` when stdin is exhausted is
caught by no handler in the file and aborts the program before line 203. -/
inductive ExitKind where
  | normal
  | eofError
  deriving Repr, DecidableEq

/-- What `main` did by the time the process ended: how the loop
terminated and whether `conn.close()` (source line 204) ran. -/
structure MainResult where
  exitKind : ExitKind
  connClosed : Bool
  deriving Repr, DecidableEq

/-- Embedding of the `while True` menu loop of `main` (source lines
177-205) over a finite list of stdin lines.  Each iteration reads a menu
choice; choices 1-4 dispatch to the four operations, each of which reads
its own further `input()` lines; choice 5 breaks, after which `main`
closes the connection (lines 203-205).  An exhausted input list models
`input()` raising `EOFError`, which none of the handlers in the file
catches (they catch only `ValueError` and `mysql.connector.Error`), so
the program dies without reaching `conn.close()`.  `fuel` bounds the
number of loop iterations: every iteration reads at least the menu
choice, so `inputs.length` iterations always suffice and the zero-fuel
default (same result as an immediate EOF) is unreachable from
`mainLoop`. -/
def mainLoopFuel : Nat → Registry → List String → MainResult × Registry
  | 0, s, _ => (⟨.eofError, false⟩, s)
  | _ + 1, s, [] => (⟨.eofError, false⟩, s)
  | fuel + 1, s, choice :: rest =>
      if choice = "1" then
        match rest with
        | n :: c :: a :: r :: rest4 =>
            mainLoopFuel fuel (check_in_customer s n c a r).2 rest4
        | _ => (⟨.eofError, false⟩, s)
      else if choice = "2" then
        mainLoopFuel fuel s rest
      else if choice = "3" then
        match rest with
        | _ :: rest1 => mainLoopFuel fuel s rest1
        | [] => (⟨.eofError, false⟩, s)
      else if choice = "4" then
        match rest with
        | [] => (⟨.eofError, false⟩, s)
        | roomInput :: rest1 =>
            match pyToInt roomInput with
            | none => mainLoopFuel fuel s rest1
            | some room =>
                match s.rows.find? (fun c => c.room_number == room) with
                | none => mainLoopFuel fuel s rest1
                | some _ =>
                    match rest1 with
                    | [] => (⟨.eofError, false⟩, s)
                    | confirm :: rest2 =>
                        mainLoopFuel fuel
                          (check_out_customer s s roomInput confirm).2 rest2
      else if choice = "5" then
        (⟨.normal, true⟩, s)
      else
        mainLoopFuel fuel s rest

/-- The run of `main` after a successful `setup_database` (source lines
177-205), on a given starting table state and list of stdin lines. -/
def mainLoop (s : Registry) (inputs : List String) : MainResult × Registry :=
  mainLoopFuel inputs.length s inputs

/-- A registry holding one guest, Alice Tan in room 101, used as the
concrete state of the witness theorems. -/
def aliceRow : Customer :=
  ⟨1, "Alice Tan", "555-0100", "1 Main St", 101, 0⟩

/-- Concrete one-guest registry for witnesses. -/
def sampleReg : Registry := ⟨[aliceRow], 2, 1⟩

/-- The empty registry right after provisioning. -/
def emptyReg : Registry := ⟨[], 1, 0⟩

/-- Occupancy of a room: some active record carries that room number. -/
def Occupied (s : Registry) (R : Int) : Prop :=
  ∃ cu ∈ s.rows, cu.room_number = R

instance (s : Registry) (R : Int) : Decidable (Occupied s R) := by
  unfold Occupied; infer_instance

theorem find?_room_eq_none {s : Registry} {R : Int}
    (h : ¬ Occupied s R) :
    s.rows.find? (fun cu => cu.room_number == R) = none := by
  rw [List.find?_eq_none]
  intro cu hm
  simp only [beq_iff_eq]
  exact fun he => h ⟨cu, hm, he⟩

/-- C1: if room R is occupied (an active record with room_number R
exists), a check-in of another well-formed guest to R reaches the INSERT,
violates the UNIQUE constraint (errno 1062), and is reported as a
conflict naming R, with the registry — in particular the original record
for R — unchanged. -/
theorem check_in_occupied_conflict (s : Registry) (R : Int)
    (n c a rIn : String)
    (hocc : Occupied s R)
    (hn : n ≠ "") (hc : c ≠ "") (ha : a ≠ "") (hR : R ≠ 0)
    (hparse : pyToInt rIn = some R) :
    check_in_customer s n c a rIn = (.ConflictFailure R, s) := by
  have hany : s.rows.any (fun cu => cu.room_number == R) = true := by
    rw [List.any_eq_true]
    obtain ⟨cu, hm, he⟩ := hocc
    exact ⟨cu, hm, by simp [he]⟩
  simp [check_in_customer, hparse, hn, hc, ha, hR, hany]

/-- C1 witness: with Alice occupying room 101, checking Bob Lee into 101
yields the conflict naming 101 and leaves the registry unchanged. -/
theorem check_in_occupied_conflict_witness :
    check_in_customer sampleReg "Bob Lee" "555-0101" "2 Oak Ave" "101" =
      (.ConflictFailure 101, sampleReg) :=
  check_in_occupied_conflict sampleReg 101 "Bob Lee" "555-0101" "2 Oak Ave"
    "101" ⟨aliceRow, by simp [sampleReg], by decide⟩ (by decide) (by decide)
    (by decide) (by decide) (by decide)

/-- C3: when no active record carries room R, `find_customer` reports
NotFound for R, and `check_out_customer` reports NotFound for R from the
lookup alone — whatever the confirmation input would have been — and in
both cases the registry is unchanged. -/
theorem vacant_room_not_found (s : Registry) (R : Int)
    (rIn confirm : String)
    (hparse : pyToInt rIn = some R)
    (hvac : ¬ Occupied s R) :
    find_customer s rIn = (.NotFound R, s) ∧
    check_out_customer s s rIn confirm = (.NotFound R, s) := by
  have hfind := find?_room_eq_none hvac
  exact ⟨by simp [find_customer, hparse, hfind],
    by simp [check_out_customer, hparse, hfind]⟩

/-- C3 witness: on the empty registry, find and check-out of room 999
both report NotFound and change nothing. -/
theorem vacant_room_not_found_witness :
    find_customer emptyReg "999" = (.NotFound 999, emptyReg) ∧
    check_out_customer emptyReg emptyReg "999" "y" =
      (.NotFound 999, emptyReg) :=
  vacant_room_not_found emptyReg 999 "999" "y" (by decide) (by decide)

/-- C4: checking out an occupied room with a confirmation that is not
`y` (after lowercasing) cancels the operation: the outcome is Cancelled,
the registry is returned unchanged, and the record for R is still
present. -/
theorem check_out_declined_cancelled (s : Registry) (R : Int)
    (rIn confirm : String)
    (hparse : pyToInt rIn = some R)
    (hocc : Occupied s R)
    (hconfirm : pyLower confirm ≠ "y") :
    check_out_customer s s rIn confirm = (.Cancelled, s) ∧
    ∃ cu ∈ (check_out_customer s s rIn confirm).2.rows,
      cu.room_number = R := by
  obtain ⟨cu, hm, he⟩ := hocc
  have hfind : (s.rows.find? (fun x => x.room_number == R)).isSome := by
    cases hf : s.rows.find? (fun x => x.room_number == R) with
    | none =>
        rw [List.find?_eq_none] at hf
        exact absurd (by simp [he]) (hf cu hm)
    | some _ => rfl
  cases hf : s.rows.find? (fun x => x.room_number == R) with
  | none => rw [hf] at hfind; exact absurd hfind (by simp)
  | some cu0 =>
      have hres : check_out_customer s s rIn confirm = (.Cancelled, s) := by
        simp [check_out_customer, hparse, hf, hconfirm]
      exact ⟨hres, cu, by rw [hres]; exact hm, he⟩

/-- C4 witness: declining (answer `n`) the check-out of occupied room
101 yields Cancelled with Alice's record still present. -/
theorem check_out_declined_cancelled_witness :
    check_out_customer sampleReg sampleReg "101" "n" =
      (.Cancelled, sampleReg) ∧
    ∃ cu ∈ (check_out_customer sampleReg sampleReg "101" "n").2.rows,
      cu.room_number = 101 :=
  check_out_declined_cancelled sampleReg 101 "101" "n" (by decide)
    ⟨aliceRow, by simp [sampleReg], by decide⟩ (by decide)

/-- C5: if the lookup phase of check-out sees the room occupied and the
caller confirms, but by delete time the record has vanished (the DELETE
affects zero rows), the operation reports the storage-class failure
"Could not process check-out." instead of success. -/
theorem check_out_race_storage_failure (sLook sDel : Registry) (R : Int)
    (rIn confirm : String)
    (hparse : pyToInt rIn = some R)
    (hocc : Occupied sLook R)
    (hconfirm : pyLower confirm = "y")
    (hgone : ¬ Occupied sDel R) :
    (check_out_customer sLook sDel rIn confirm).1 =
      .StorageFailure "Could not process check-out." := by
  obtain ⟨cu, hm, he⟩ := hocc
  cases hf : sLook.rows.find? (fun x => x.room_number == R) with
  | none =>
      rw [List.find?_eq_none] at hf
      exact absurd (by simp [he]) (hf cu hm)
  | some cu0 =>
      have hcount : sDel.rows.countP (fun x => x.room_number == R) = 0 := by
        rw [List.countP_eq_zero]
        intro x hx
        simp only [beq_iff_eq]
        exact fun hxe => hgone ⟨x, hx, hxe⟩
      simp [check_out_customer, hparse, hf, hconfirm, hcount]

/-- C5 witness: room 101 is occupied at lookup time but the registry is
empty at delete time; the confirmed check-out reports the
could-not-process failure. -/
theorem check_out_race_storage_failure_witness :
    (check_out_customer sampleReg emptyReg "101" "y").1 =
      .StorageFailure "Could not process check-out." :=
  check_out_race_storage_failure sampleReg emptyReg 101 "101" "y"
    (by decide) ⟨aliceRow, by simp [sampleReg], by decide⟩ (by decide)
    (by decide)

/-- C7: an input that does not parse as an integer makes both
`find_customer` and `check_out_customer` fail validation inside the
`ValueError` handler: no query or deletion is reached and the registry is
returned unchanged. -/
theorem non_integer_input_validation (s : Registry) (badIn confirm : String)
    (hbad : pyToInt badIn = none) :
    find_customer s badIn = (.InvalidInput, s) ∧
    check_out_customer s s badIn confirm = (.InvalidInput, s) := by
  exact ⟨by simp [find_customer, hbad],
    by simp [check_out_customer, hbad]⟩

/-- C7 witness: the input `abc` fails integer parsing, so find and
check-out both report the validation failure and leave the one-guest
registry untouched. -/
theorem non_integer_input_validation_witness :
    find_customer sampleReg "abc" = (.InvalidInput, sampleReg) ∧
    check_out_customer sampleReg sampleReg "abc" "y" =
      (.InvalidInput, sampleReg) :=
  non_integer_input_validation sampleReg "abc" "y" (by decide)

/-- C10: a check-in giving room number 0 with all text fields non-empty
is rejected by the missing-field check (`all` treats the integer 0 as
falsy), so the outcome is the "All fields are required" rejection and no
insert happens: the registry is unchanged. -/
theorem check_in_room_zero_missing_field (s : Registry) (n c a : String)
    (hn : n ≠ "") (hc : c ≠ "") (ha : a ≠ "") :
    check_in_customer s n c a "0" = (.MissingField, s) := by
  have h0 : pyToInt "0" = some 0 := by decide
  simp [check_in_customer, h0]

/-- C2: after a successful check-in of non-empty name/contact/address to
a room R that was vacant, an immediate find on R returns exactly the
record built from the caller's four inputs, with its id taken from the
store's AUTO_INCREMENT counter and its timestamp from the store clock at
insert time. -/
theorem check_in_find_round_trip (s : Registry) (n c a rIn : String)
    (R : Int)
    (hparse : pyToInt rIn = some R)
    (hn : n ≠ "") (hc : c ≠ "") (ha : a ≠ "")
    (hvac : ¬ Occupied s R)
    (hsucc : ∃ nm rm, (check_in_customer s n c a rIn).1 = .Success nm rm) :
    find_customer (check_in_customer s n c a rIn).2 rIn =
      (.Found ⟨s.nextId, n, c, a, R, s.clock⟩,
        (check_in_customer s n c a rIn).2) := by
  obtain ⟨nm, rm, hsucc⟩ := hsucc
  by_cases h0 : n = "" ∨ c = "" ∨ a = "" ∨ R = 0
  · simp [check_in_customer, hparse, h0] at hsucc
  · by_cases hany : s.rows.any (fun cu => cu.room_number == R) = true
    · simp [check_in_customer, hparse, h0, hany] at hsucc
    · have hnone : s.rows.find? (fun cu => cu.room_number == R) = none := by
        rw [List.find?_eq_none]
        intro cu hm
        rw [List.any_eq_true] at hany
        exact fun hp => hany ⟨cu, hm, hp⟩
      rw [Bool.not_eq_true] at hany
      simp [check_in_customer, hparse, h0, hany, find_customer,
        List.find?_append, hnone]

/-- C2 witness: checking Alice Tan into room 101 on the empty registry
and finding room 101 immediately afterwards returns her full record with
the store-assigned id 1 and timestamp 0. -/
theorem check_in_find_round_trip_witness :
    find_customer
        (check_in_customer emptyReg "Alice Tan" "555-0100" "1 Main St"
          "101").2 "101" =
      (.Found ⟨1, "Alice Tan", "555-0100", "1 Main St", 101, 0⟩,
        (check_in_customer emptyReg "Alice Tan" "555-0100" "1 Main St"
          "101").2) :=
  check_in_find_round_trip emptyReg "Alice Tan" "555-0100" "1 Main St"
    "101" 101 (by decide) (by decide) (by decide) (by decide) (by decide)
    ⟨"Alice Tan", 101, by decide⟩

/-- C6: for every registry state the listing succeeds and returns
exactly the active records (a permutation of the table's rows), in
ascending room-number order, and the returned list is empty exactly when
the table is empty — so the no-records case is a Success carrying zero
records, not an error. -/
theorem view_all_ordered_success (s : Registry) :
    ∃ l, view_all_customers s = .Success l ∧
      List.Sorted roomLe l ∧ l.Perm s.rows ∧ (l = [] ↔ s.rows = []) := by
  refine ⟨s.rows.insertionSort roomLe, rfl,
    List.sorted_insertionSort roomLe s.rows,
    List.perm_insertionSort roomLe s.rows, ?_, ?_⟩
  · intro h
    have hp := (List.perm_insertionSort roomLe s.rows).symm
    rw [h] at hp
    exact hp.eq_nil
  · intro h
    rw [h]
    rfl

/-- C8: provisioning is idempotent — with a healthy server a run always
ends Ready with the table present, and a second run ends Ready while
changing nothing (so the table is not duplicated); the already-exists
errno on CREATE DATABASE is swallowed as success, while any other errno
on creation propagates as a setup failure that leaves the server state
untouched. -/
theorem setup_database_idempotent :
    (∀ s : ServerState,
      (setup_database s none).2 = .Ready ∧
      setup_database (setup_database s none).1 none =
        ((setup_database s none).1, .Ready) ∧
      ((setup_database s none).1).tableExists = true) ∧
    (∀ s : ServerState,
      setup_database s (some ER_DB_CREATE_EXISTS) =
        (createTableIfNotExists s, .Ready)) ∧
    (∀ (s : ServerState) (e : Nat), e ≠ ER_DB_CREATE_EXISTS →
      setup_database s (some e) = (s, .SetupError e)) := by
  refine ⟨?_, ?_, ?_⟩
  · rintro ⟨db, tb⟩
    cases db <;> cases tb <;>
      simp [setup_database, createDatabase, createTableIfNotExists,
        ER_DB_CREATE_EXISTS]
  · intro s
    simp [setup_database, createDatabase]
  · intro s e he
    simp [setup_database, createDatabase, he]

/-- C8 witness: on a fresh server a run is Ready, and a CREATE DATABASE
failing with errno 1045 (access denied) propagates as a setup failure. -/
theorem setup_database_idempotent_witness :
    (setup_database ⟨false, false⟩ none).2 = .Ready ∧
    setup_database ⟨false, false⟩ (some 1045) =
      (⟨false, false⟩, .SetupError 1045) :=
  ⟨(setup_database_idempotent.1 ⟨false, false⟩).1,
    setup_database_idempotent.2.2 ⟨false, false⟩ 1045 (by decide)⟩

/-- C10 witness: checking Bob Lee into room 0 on the empty registry is
rejected as a missing field and inserts nothing. -/
theorem check_in_room_zero_missing_field_witness :
    check_in_customer emptyReg "Bob Lee" "555-0101" "2 Oak Ave" "0" =
      (.MissingField, emptyReg) :=
  check_in_room_zero_missing_field emptyReg "Bob Lee" "555-0101" "2 Oak Ave"
    (by decide) (by decide) (by decide)

theorem mainLoopFuel_result_cases (fuel : Nat) :
    ∀ (s : Registry) (inputs : List String),
    (mainLoopFuel fuel s inputs).1 = ⟨.normal, true⟩ ∨
    (mainLoopFuel fuel s inputs).1 = ⟨.eofError, false⟩ := by
  induction fuel with
  | zero => intro s inputs; right; rfl
  | succ n ih =>
      intro s inputs
      rcases inputs with _ | ⟨choice, rest⟩
      · right; rfl
      · simp only [mainLoopFuel]
        repeat' split
        all_goals first
          | exact ih _ _
          | (left; rfl)
          | (right; rfl)

/-- C9 counterexample: a session whose stdin ends after one successful
check-in (no menu choice 5 ever arrives) terminates through the uncaught
`EOFError` raised at the next `input()`, and the program ends with the
connection never closed — `main` has no try/finally, so lines 203-205
are skipped on this termination path. -/
theorem main_eof_connection_not_closed :
    (mainLoop emptyReg
        ["1", "Alice Tan", "555-0100", "1 Main St", "101"]).1.exitKind =
      .eofError ∧
    (mainLoop emptyReg
        ["1", "Alice Tan", "555-0100", "1 Main St", "101"]).1.connClosed =
      false := by
  constructor <;> rfl

/-- C9 amended: the connection acquired at startup is closed exactly on
the normal termination path of the menu loop (choice 5 then the `break`
into lines 203-205); a loop that terminates through an uncaught error
(EOFError from `input()`) ends the program without the connection being
closed. -/
theorem mainLoop_close_iff_normal (s : Registry) (inputs : List String) :
    (mainLoop s inputs).1.connClosed = true ↔
    (mainLoop s inputs).1.exitKind = .normal := by
  rcases mainLoopFuel_result_cases inputs.length s inputs with h | h <;>
    · unfold mainLoop
      rw [h]
      simp

end HotelMgmt
